import Mathlib

/-!
Shallow embedding of the Socket.io chat server (`server/index.js`) of the
vue-chat-app repository.

State of the server:
* `connectedUsers` — a JS `Map` from socket id to per-connection session info,
* `chatRooms` — a JS `Map` from room id to room records,
* `sio` — the socket.io adapter's room membership (maintained by
  `socket.join` / `socket.leave`, and cleared for a socket before its
  `disconnect` handler runs),
* `sockets` — the set of currently connected socket ids (`io.sockets.sockets`).

JS `Map`s preserve insertion order and `set` on an existing key updates in
place; they are modelled as association lists with `mapGet` / `mapSet` /
`mapDelete` below.

Every `socket.emit` / `socket.to(room).emit` / `io.to(room).emit` / `io.emit`
performed by a handler is modelled as an `Emit` record carrying the list of
target socket ids and the event payload, in the order the server performs
them.  Timestamps (`Date.now()` / `new Date()`) and generated ids are passed
to the handlers as explicit arguments.
-/

abbrev SocketId := String

abbrev RoomId := String

/-- An entry of a room's `users` array: `{socketId, nickname, joinedAt, isOwner}`. -/
structure Member where
  socketId : SocketId
  nickname : String
  joinedAt : Nat
  isOwner : Bool
deriving Repr, DecidableEq

/-- A record of the `chatRooms` map. -/
structure Room where
  id : RoomId
  name : String
  owner : SocketId
  ownerName : String
  users : List Member
  createdAt : Nat
  isPrivate : Bool
deriving Repr, DecidableEq

/-- A record of the `connectedUsers` map: `{username, room, isOwner}`. -/
structure UserInfo where
  username : String
  room : RoomId
  isOwner : Bool
deriving Repr, DecidableEq

/-- One element of the payload built by `broadcastRoomsList` /
`sendRoomsListToClient`. -/
structure RoomSummary where
  id : RoomId
  name : String
  owner : String
  userCount : Nat
  users : List String
  createdAt : Nat
  isPrivate : Bool
deriving Repr, DecidableEq

/-- The outbound events the server emits (payload fields restricted to the
ones the specification talks about). -/
inductive SEvent where
  | roomCreationFailed (code : String)
  | roomCreated (roomId : RoomId) (name : String)
  | joinFailed (code : String)
  | userJoined (user : String)
  | joinConfirmed (roomId : RoomId) (name : String) (userCount : Nat)
  | chatMessage (user : String) (roomId : RoomId) (text : String) (msgId : String)
      (serverTimestamp : Nat) (senderSocket : SocketId) (isOwner : Bool)
  | userLeft (user : String) (wasOwner : Bool)
  | ownershipTransferred (roomId : RoomId) (roomName : String)
  | ownerChanged (newOwner : String)
  | leaveFailed (code : String)
  | leaveConfirmed (roomDeleted : Bool) (newOwner : Option String)
  | errorMsg (text : String)
  | roomsList (rooms : List RoomSummary)
deriving Repr, DecidableEq

/-- One delivery performed by the server: the payload `event` is sent to each
socket id in `targets`. -/
structure Emit where
  targets : List SocketId
  event : SEvent
deriving Repr, DecidableEq

/-- The whole mutable state of the server process. -/
structure ServerState where
  connectedUsers : List (SocketId × UserInfo)
  chatRooms : List (RoomId × Room)
  sio : List (RoomId × List SocketId)
  sockets : List SocketId
deriving Repr, DecidableEq

/-- `Map.get`. -/
def mapGet {α β : Type} [DecidableEq α] : List (α × β) → α → Option β
  | [], _ => none
  | (k₀, v₀) :: rest, k => if k₀ = k then some v₀ else mapGet rest k

/-- `Map.set`: update in place if the key is present, append otherwise. -/
def mapSet {α β : Type} [DecidableEq α] : List (α × β) → α → β → List (α × β)
  | [], k, v => [(k, v)]
  | (k₀, v₀) :: rest, k, v =>
      if k₀ = k then (k, v) :: rest else (k₀, v₀) :: mapSet rest k v

/-- `Map.delete`. -/
def mapDelete {α β : Type} [DecidableEq α] : List (α × β) → α → List (α × β)
  | [], _ => []
  | (k₀, v₀) :: rest, k =>
      if k₀ = k then mapDelete rest k else (k₀, v₀) :: mapDelete rest k

/-- JS `String.prototype.trim()`: drop whitespace from both ends (modelled on
the character list so that it evaluates by kernel reduction). -/
def strTrim (s : String) : String :=
  ⟨((s.data.dropWhile Char.isWhitespace).reverse.dropWhile Char.isWhitespace).reverse⟩

/-- JS `String.prototype.toLowerCase()` (ASCII case folding, modelled on the
character list so that it evaluates by kernel reduction). -/
def strToLower (s : String) : String :=
  ⟨s.data.map Char.toLower⟩

/-- `room.users.findIndex(user => user.socketId === socketId) !== -1`. -/
def hasUser : List Member → SocketId → Bool
  | [], _ => false
  | u :: rest, sid => if u.socketId = sid then true else hasUser rest sid

/-- Effect of `room.users.splice(userIndex, 1)` after a successful
`findIndex`: drop the first entry with the given socket id. -/
def removeFirst : List Member → SocketId → List Member
  | [], _ => []
  | u :: rest, sid => if u.socketId = sid then rest else u :: removeFirst rest sid

/-- `Array.from(chatRooms.values()).some(room => room.name.toLowerCase() ===
lowerName)` where `lowerName` is the trimmed, lower-cased requested name. -/
def nameExists : List (RoomId × Room) → String → Bool
  | [], _ => false
  | (_, r) :: rest, n => if strToLower r.name = n then true else nameExists rest n

/-- Remove a socket id from a socket.io room's member set. -/
def eraseSock : List SocketId → SocketId → List SocketId
  | [], _ => []
  | x :: rest, sid => if x = sid then eraseSock rest sid else x :: eraseSock rest sid

/-- The member set of a socket.io room (empty if the adapter has no entry). -/
def sioMembers (sio : List (RoomId × List SocketId)) (rid : RoomId) : List SocketId :=
  (mapGet sio rid).getD []

/-- `socket.join(rid)` by socket `sid`. -/
def sioJoin (sio : List (RoomId × List SocketId)) (rid : RoomId) (sid : SocketId) :
    List (RoomId × List SocketId) :=
  match mapGet sio rid with
  | none => sio ++ [(rid, [sid])]
  | some l => if sid ∈ l then sio else mapSet sio rid (l ++ [sid])

/-- `socket.leave(rid)` by socket `sid`. -/
def sioLeave (sio : List (RoomId × List SocketId)) (rid : RoomId) (sid : SocketId) :
    List (RoomId × List SocketId) :=
  match mapGet sio rid with
  | none => sio
  | some l => mapSet sio rid (eraseSock l sid)

/-- socket.io removes a disconnecting socket from every room before the
`disconnect` handler runs. -/
def sioLeaveAll (sio : List (RoomId × List SocketId)) (sid : SocketId) :
    List (RoomId × List SocketId) :=
  sio.map (fun p => (p.1, eraseSock p.2 sid))

/-- `transferOwnership(roomId)` (server/index.js lines 112–128): if the room
is missing or has no users it is deleted and `null` is returned; otherwise
the first entry of `users` becomes the owner and is returned. -/
def transferOwnership (rooms : List (RoomId × Room)) (roomId : RoomId) :
    List (RoomId × Room) × Option Member :=
  match mapGet rooms roomId with
  | none => (mapDelete rooms roomId, none)
  | some room =>
      match room.users with
      | [] => (mapDelete rooms roomId, none)
      | newOwner :: _ =>
          (mapSet rooms roomId
            { room with owner := newOwner.socketId, ownerName := newOwner.nickname },
           some newOwner)

/-- `removeUserFromRoom(roomId, socketId)` (server/index.js lines 137–146):
splice the user out of the room's `users` array if present; the room record
itself is never deleted here. -/
def removeUserFromRoom (rooms : List (RoomId × Room)) (roomId : RoomId)
    (sid : SocketId) : List (RoomId × Room) :=
  match mapGet rooms roomId with
  | none => rooms
  | some room =>
      if hasUser room.users sid then
        mapSet rooms roomId { room with users := removeFirst room.users sid }
      else rooms

/-- The per-room payload built by `broadcastRoomsList` and
`sendRoomsListToClient` (id, name, owner nickname, user count, nicknames,
creation time, privacy flag), in map insertion order. -/
def roomsSummary (rooms : List (RoomId × Room)) : List RoomSummary :=
  rooms.map (fun p =>
    { id := p.2.id, name := p.2.name, owner := p.2.ownerName,
      userCount := p.2.users.length, users := p.2.users.map Member.nickname,
      createdAt := p.2.createdAt, isPrivate := p.2.isPrivate })

/-- `socket.on('create room')` (server/index.js lines 188–269).  `now` stands
for `Date.now()` and `newId` for the value of `generateRoomId()`. -/
def createRoomHandler (s : ServerState) (sid : SocketId) (user rawName : String)
    (now : Nat) (newId : RoomId) : ServerState × List Emit :=
  if strTrim rawName = "" then
    (s, [{ targets := [sid], event := .roomCreationFailed "INVALID_ROOM_NAME" }])
  else if nameExists s.chatRooms (strToLower (strTrim rawName)) then
    (s, [{ targets := [sid], event := .roomCreationFailed "ROOM_NAME_EXISTS" }])
  else
    let roomName := strTrim rawName
    let newRoom : Room :=
      { id := newId, name := roomName, owner := sid, ownerName := user,
        users := [{ socketId := sid, nickname := user, joinedAt := now, isOwner := true }],
        createdAt := now, isPrivate := false }
    let rooms1 := mapSet s.chatRooms newId newRoom
    let cu1 := mapSet s.connectedUsers sid { username := user, room := newId, isOwner := true }
    let sio1 := sioJoin s.sio newId sid
    ({ s with chatRooms := rooms1, connectedUsers := cu1, sio := sio1 },
     [{ targets := [sid], event := .roomCreated newId roomName },
      { targets := s.sockets, event := .roomsList (roomsSummary rooms1) }])

/-- `socket.on('get rooms')` (server/index.js lines 588–593): answer the
requesting socket only. -/
def getRoomsHandler (s : ServerState) (sid : SocketId) : ServerState × List Emit :=
  (s, [{ targets := [sid], event := .roomsList (roomsSummary s.chatRooms) }])

/-- `socket.on('join')` (server/index.js lines 282–394).  If the caller's
session points at a different room, the handler only calls `socket.leave` and
`removeUserFromRoom` on it (no ownership transfer, no deletion, no
notifications); then it records the session, appends the caller to the target
room's `users` if not already present, joins the socket.io room, notifies the
other members, confirms to the caller and broadcasts the rooms list. -/
def joinHandler (s : ServerState) (sid : SocketId) (user : String) (roomId : RoomId)
    (now : Nat) : ServerState × List Emit :=
  match mapGet s.chatRooms roomId with
  | none => (s, [{ targets := [sid], event := .joinFailed "ROOM_NOT_FOUND" }])
  | some room =>
      let leaveOld : ServerState :=
        match mapGet s.connectedUsers sid with
        | some cu =>
            if cu.room ≠ roomId then
              { s with sio := sioLeave s.sio cu.room sid,
                       chatRooms := removeUserFromRoom s.chatRooms cu.room sid }
            else s
        | none => s
      let cu1 := mapSet leaveOld.connectedUsers sid
        { username := user, room := roomId, isOwner := decide (room.owner = sid) }
      let room1 : Room :=
        if hasUser room.users sid then room
        else { room with users := room.users ++
          [{ socketId := sid, nickname := user, joinedAt := now,
             isOwner := decide (room.owner = sid) }] }
      let rooms1 := mapSet leaveOld.chatRooms roomId room1
      let sio1 := sioJoin leaveOld.sio roomId sid
      ({ leaveOld with connectedUsers := cu1, chatRooms := rooms1, sio := sio1 },
       [{ targets := eraseSock (sioMembers sio1 roomId) sid, event := .userJoined user },
        { targets := [sid],
          event := .joinConfirmed roomId room.name room1.users.length },
        { targets := s.sockets, event := .roomsList (roomsSummary rooms1) }])

/-- `socket.on('chat message')` (server/index.js lines 405–465): validate,
then broadcast the message (with server timestamp and generated id) via
`io.to(msg.room)` — all members of the socket.io room, sender included.  The
state is not mutated. -/
def chatMessageHandler (s : ServerState) (sid : SocketId) (user roomId text : String)
    (now : Nat) (msgId : String) : ServerState × List Emit :=
  if user = "" ∨ text = "" ∨ roomId = "" then
    (s, [{ targets := [sid], event := .errorMsg "INVALID_MESSAGE_DATA" }])
  else
    match mapGet s.chatRooms roomId with
    | none => (s, [{ targets := [sid], event := .errorMsg "ROOM_NOT_FOUND" }])
    | some room =>
        if hasUser room.users sid then
          (s, [{ targets := sioMembers s.sio roomId,
                 event := .chatMessage user roomId text msgId now sid
                   (decide (room.owner = sid)) }])
        else (s, [{ targets := [sid], event := .errorMsg "NOT_IN_ROOM" }])

/-- `socket.on('leave')` (server/index.js lines 470–583).  Unknown room:
`'leave failed'` with `ROOM_NOT_FOUND`.  Otherwise: leave the socket.io room,
splice the user out, notify the others, run the ownership block when the
leaver was the owner (`room.owner === socket.id`), confirm to the leaver,
drop the session and broadcast the rooms list. -/
def leaveHandler (s : ServerState) (sid : SocketId) (user : String) (roomId : RoomId) :
    ServerState × List Emit :=
  match mapGet s.chatRooms roomId with
  | none => (s, [{ targets := [sid], event := .leaveFailed "ROOM_NOT_FOUND" }])
  | some room =>
      let wasOwner := decide (room.owner = sid)
      let sio1 := sioLeave s.sio roomId sid
      let rooms1 := removeUserFromRoom s.chatRooms roomId sid
      let usersAfter := removeFirst room.users sid
      let firstEmit : Emit :=
        { targets := eraseSock (sioMembers sio1 roomId) sid,
          event := .userLeft user wasOwner }
      if room.owner = sid then
        if usersAfter.length > 0 then
          let result := transferOwnership rooms1 roomId
          match result.2 with
          | some newOwner =>
              let transferEmits : List Emit :=
                if newOwner.socketId ∈ s.sockets then
                  [{ targets := [newOwner.socketId],
                     event := .ownershipTransferred roomId room.name }]
                else []
              let cu1 :=
                if newOwner.socketId ∈ s.sockets then
                  match mapGet s.connectedUsers newOwner.socketId with
                  | some ud =>
                      mapSet s.connectedUsers newOwner.socketId { ud with isOwner := true }
                  | none => s.connectedUsers
                else s.connectedUsers
              ({ s with connectedUsers := mapDelete cu1 sid,
                        chatRooms := result.1, sio := sio1 },
               [firstEmit] ++ transferEmits ++
               [{ targets := sioMembers sio1 roomId,
                  event := .ownerChanged newOwner.nickname },
                { targets := [sid],
                  event := .leaveConfirmed false (some newOwner.nickname) },
                { targets := s.sockets, event := .roomsList (roomsSummary result.1) }])
          | none =>
              ({ s with connectedUsers := mapDelete s.connectedUsers sid,
                        chatRooms := result.1, sio := sio1 },
               [firstEmit,
                { targets := [sid], event := .leaveConfirmed false none },
                { targets := s.sockets, event := .roomsList (roomsSummary result.1) }])
        else
          let rooms2 := mapDelete rooms1 roomId
          ({ s with connectedUsers := mapDelete s.connectedUsers sid,
                    chatRooms := rooms2, sio := sio1 },
           [firstEmit,
            { targets := [sid], event := .leaveConfirmed true none },
            { targets := s.sockets, event := .roomsList (roomsSummary rooms2) }])
      else
        ({ s with connectedUsers := mapDelete s.connectedUsers sid,
                  chatRooms := rooms1, sio := sio1 },
         [firstEmit,
          { targets := [sid], event := .leaveConfirmed false none },
          { targets := s.sockets, event := .roomsList (roomsSummary rooms1) }])

/-- `socket.on('disconnect')` (server/index.js lines 603–707).  socket.io has
already removed the socket from every room and from `io.sockets.sockets` when
the handler runs; the handler then mirrors the `leave` cleanup for the
session's current room, except that `wasOwner` is read from the session's
`isOwner` flag and no confirmation is sent to the gone socket; finally the
session is destroyed. -/
def disconnectHandler (s : ServerState) (sid : SocketId) : ServerState × List Emit :=
  let s0 : ServerState :=
    { s with sio := sioLeaveAll s.sio sid, sockets := eraseSock s.sockets sid }
  match mapGet s0.connectedUsers sid with
  | none => (s0, [])
  | some du =>
      match mapGet s0.chatRooms du.room with
      | none => ({ s0 with connectedUsers := mapDelete s0.connectedUsers sid }, [])
      | some room =>
          let rooms1 := removeUserFromRoom s0.chatRooms du.room sid
          let usersAfter := removeFirst room.users sid
          let firstEmit : Emit :=
            { targets := eraseSock (sioMembers s0.sio du.room) sid,
              event := .userLeft du.username du.isOwner }
          if du.isOwner then
            if usersAfter.length > 0 then
              let result := transferOwnership rooms1 du.room
              match result.2 with
              | some newOwner =>
                  let transferEmits : List Emit :=
                    if newOwner.socketId ∈ s0.sockets then
                      [{ targets := [newOwner.socketId],
                         event := .ownershipTransferred du.room room.name }]
                    else []
                  let cu1 :=
                    if newOwner.socketId ∈ s0.sockets then
                      match mapGet s0.connectedUsers newOwner.socketId with
                      | some ud =>
                          mapSet s0.connectedUsers newOwner.socketId
                            { ud with isOwner := true }
                      | none => s0.connectedUsers
                    else s0.connectedUsers
                  ({ s0 with connectedUsers := mapDelete cu1 sid,
                             chatRooms := result.1 },
                   [firstEmit] ++ transferEmits ++
                   [{ targets := sioMembers s0.sio du.room,
                      event := .ownerChanged newOwner.nickname },
                    { targets := s0.sockets,
                      event := .roomsList (roomsSummary result.1) }])
              | none =>
                  ({ s0 with connectedUsers := mapDelete s0.connectedUsers sid,
                             chatRooms := result.1 },
                   [firstEmit,
                    { targets := s0.sockets,
                      event := .roomsList (roomsSummary result.1) }])
            else
              let rooms2 := mapDelete rooms1 du.room
              ({ s0 with connectedUsers := mapDelete s0.connectedUsers sid,
                         chatRooms := rooms2 },
               [firstEmit,
                { targets := s0.sockets, event := .roomsList (roomsSummary rooms2) }])
          else
            ({ s0 with connectedUsers := mapDelete s0.connectedUsers sid,
                       chatRooms := rooms1 },
             [firstEmit,
              { targets := s0.sockets, event := .roomsList (roomsSummary rooms1) }])

/-- Two connected sockets, no rooms yet. -/
def stA0 : ServerState := { connectedUsers := [], chatRooms := [], sio := [], sockets := ["A", "B"] }

/-- Socket `A` created room `r1` (named `x`). -/
def stA1 : ServerState := (createRoomHandler stA0 "A" "alice" "x" 10 "r1").1

/-- Then socket `B` created room `r2` (named `y`). -/
def stA2 : ServerState := (createRoomHandler stA1 "B" "bob" "y" 20 "r2").1

/-- Then `A` — sole member and owner of `r1` — joined `r2`. -/
def stA3 : ServerState := (joinHandler stA2 "A" "alice" "r2" 30).1

/-- Three connected sockets, no rooms yet. -/
def stB0 : ServerState :=
  { connectedUsers := [], chatRooms := [], sio := [], sockets := ["A", "B", "C"] }

/-- Socket `A` created room `r1` (named `x`). -/
def stB1 : ServerState := (createRoomHandler stB0 "A" "alice" "x" 10 "r1").1

/-- Then socket `B` joined `r1`. -/
def stB2 : ServerState := (joinHandler stB1 "B" "bob" "r1" 20).1

/-- Then socket `C` created room `r2` (named `y`). -/
def stB3 : ServerState := (createRoomHandler stB2 "C" "carol" "y" 30 "r2").1

/-- Then `A` — owner of `r1`, which also contains `B` — joined `r2`. -/
def stB4 : ServerState := (joinHandler stB3 "A" "alice" "r2" 40).1

/-- A room with two members, socket `a` (owner, joined first) and socket `b`. -/
def wRoom : Room :=
  { id := "r", name := "general", owner := "a", ownerName := "alice",
    users := [{ socketId := "a", nickname := "alice", joinedAt := 1, isOwner := true },
              { socketId := "b", nickname := "bob", joinedAt := 2, isOwner := false }],
    createdAt := 0, isPrivate := false }

/-- A server state holding just `wRoom`, with both members connected. -/
def wS : ServerState :=
  { connectedUsers := [("a", { username := "alice", room := "r", isOwner := true }),
                       ("b", { username := "bob", room := "r", isOwner := false })],
    chatRooms := [("r", wRoom)],
    sio := [("r", ["a", "b"])],
    sockets := ["a", "b"] }

/-- A room named `Lobby` owned by socket `a`. -/
def c5Room : Room :=
  { id := "r", name := "Lobby", owner := "a", ownerName := "alice",
    users := [{ socketId := "a", nickname := "alice", joinedAt := 1, isOwner := true }],
    createdAt := 0, isPrivate := false }

/-- A server state holding just `c5Room`, with a second connected socket `b`. -/
def c5S : ServerState :=
  { connectedUsers := [("a", { username := "alice", room := "r", isOwner := true })],
    chatRooms := [("r", c5Room)],
    sio := [("r", ["a"])],
    sockets := ["a", "b"] }

/-- A server state with one connected socket and no rooms. -/
def c6S : ServerState :=
  { connectedUsers := [], chatRooms := [], sio := [], sockets := ["A"] }

/-- A room with three members `a`, `b`, `c` (owner `a`). -/
def c8Room : Room :=
  { id := "r8", name := "general", owner := "a", ownerName := "alice",
    users := [{ socketId := "a", nickname := "alice", joinedAt := 1, isOwner := true },
              { socketId := "b", nickname := "bob", joinedAt := 2, isOwner := false },
              { socketId := "c", nickname := "carol", joinedAt := 3, isOwner := false }],
    createdAt := 0, isPrivate := false }

/-- A server state holding just `c8Room`, with all three members connected. -/
def c8S : ServerState :=
  { connectedUsers := [("a", { username := "alice", room := "r8", isOwner := true }),
                       ("b", { username := "bob", room := "r8", isOwner := false }),
                       ("c", { username := "carol", room := "r8", isOwner := false })],
    chatRooms := [("r8", c8Room)],
    sio := [("r8", ["a", "b", "c"])],
    sockets := ["a", "b", "c"] }

/-- Room `r1` with members `a` (owner) and `b`. -/
def c2Room1 : Room :=
  { id := "r1", name := "one", owner := "a", ownerName := "alice",
    users := [{ socketId := "a", nickname := "alice", joinedAt := 1, isOwner := true },
              { socketId := "b", nickname := "bob", joinedAt := 2, isOwner := false }],
    createdAt := 0, isPrivate := false }

/-- Room `r2` with sole member `c` (owner). -/
def c2Room2 : Room :=
  { id := "r2", name := "two", owner := "c", ownerName := "carol",
    users := [{ socketId := "c", nickname := "carol", joinedAt := 3, isOwner := true }],
    createdAt := 0, isPrivate := false }

/-- A server state holding `c2Room1` and `c2Room2` with sockets `a`, `b`, `c`. -/
def c2S : ServerState :=
  { connectedUsers := [("a", { username := "alice", room := "r1", isOwner := true }),
                       ("b", { username := "bob", room := "r1", isOwner := false }),
                       ("c", { username := "carol", room := "r2", isOwner := true })],
    chatRooms := [("r1", c2Room1), ("r2", c2Room2)],
    sio := [("r1", ["a", "b"]), ("r2", ["c"])],
    sockets := ["a", "b", "c"] }

theorem mapGet_mapSet_self {α β : Type} [DecidableEq α] (m : List (α × β)) (k : α) (v : β) :
    mapGet (mapSet m k v) k = some v := by
  induction m with
  | nil => simp [mapSet, mapGet]
  | cons p rest ih =>
      obtain ⟨k₀, v₀⟩ := p
      by_cases h : k₀ = k
      · simp [mapSet, h, mapGet]
      · simp [mapSet, h, mapGet, ih]

theorem mapGet_mapSet_ne {α β : Type} [DecidableEq α] (m : List (α × β)) (k k₁ : α) (v : β)
    (h : k₁ ≠ k) : mapGet (mapSet m k v) k₁ = mapGet m k₁ := by
  induction m with
  | nil => simp [mapSet, mapGet, Ne.symm h]
  | cons p rest ih =>
      obtain ⟨k₀, v₀⟩ := p
      by_cases h₀ : k₀ = k
      · subst h₀
        simp [mapSet, mapGet, Ne.symm h]
      · simp [mapSet, h₀, mapGet, ih]

theorem mapGet_mapDelete_self {α β : Type} [DecidableEq α] (m : List (α × β)) (k : α) :
    mapGet (mapDelete m k) k = none := by
  induction m with
  | nil => simp [mapDelete, mapGet]
  | cons p rest ih =>
      obtain ⟨k₀, v₀⟩ := p
      by_cases h : k₀ = k
      · simp [mapDelete, h, ih]
      · simp [mapDelete, h, mapGet, ih]

theorem mapGet_mapDelete_ne {α β : Type} [DecidableEq α] (m : List (α × β)) (k k₁ : α)
    (h : k₁ ≠ k) : mapGet (mapDelete m k) k₁ = mapGet m k₁ := by
  induction m with
  | nil => simp [mapDelete]
  | cons p rest ih =>
      obtain ⟨k₀, v₀⟩ := p
      by_cases h₀ : k₀ = k
      · subst h₀
        simp [mapDelete, mapGet, Ne.symm h, ih]
      · simp [mapDelete, h₀, mapGet, ih]

theorem mapSet_eq_self {α β : Type} [DecidableEq α] (m : List (α × β)) (k : α) (v : β)
    (h : mapGet m k = some v) : mapSet m k v = m := by
  induction m with
  | nil => simp [mapGet] at h
  | cons p rest ih =>
      obtain ⟨k₀, v₀⟩ := p
      by_cases h₀ : k₀ = k
      · subst h₀
        simp [mapGet] at h
        simp [mapSet, h]
      · simp [mapGet, h₀] at h
        simp [mapSet, h₀, ih h]

theorem mapGet_map_value {α β γ : Type} [DecidableEq α] (m : List (α × β)) (g : β → γ)
    (k : α) : mapGet (m.map (fun p => (p.1, g p.2))) k = (mapGet m k).map g := by
  induction m with
  | nil => simp [mapGet]
  | cons p rest ih =>
      obtain ⟨k₀, v₀⟩ := p
      by_cases h : k₀ = k
      · simp [mapGet, h]
      · simp [mapGet, h, ih]

theorem hasUser_eq_true_iff (l : List Member) (sid : SocketId) :
    hasUser l sid = true ↔ ∃ u ∈ l, u.socketId = sid := by
  induction l with
  | nil => simp [hasUser]
  | cons a rest ih =>
      by_cases h : a.socketId = sid
      · simp [hasUser, h]
      · simp [hasUser, h, ih]

theorem removeFirst_of_hasUser_eq_false (l : List Member) (sid : SocketId)
    (h : hasUser l sid = false) : removeFirst l sid = l := by
  induction l with
  | nil => simp [removeFirst]
  | cons a rest ih =>
      by_cases h₀ : a.socketId = sid
      · simp [hasUser, h₀] at h
      · simp [hasUser, h₀] at h
        simp [removeFirst, h₀, ih h]

theorem socketId_ne_of_mem_removeFirst (l : List Member) (sid : SocketId) (u : Member)
    (hnd : (l.map Member.socketId).Nodup) (hu : u ∈ removeFirst l sid) :
    u.socketId ≠ sid := by
  induction l with
  | nil => simp [removeFirst] at hu
  | cons a rest ih =>
      simp only [List.map_cons, List.nodup_cons] at hnd
      by_cases h₀ : a.socketId = sid
      · simp only [removeFirst, h₀, if_true] at hu
        intro hcon
        exact hnd.1 (h₀ ▸ hcon ▸ List.mem_map_of_mem Member.socketId hu)
      · simp only [removeFirst, h₀, if_false] at hu
        rcases List.mem_cons.mp hu with rfl | hu
        · exact h₀
        · exact ih hnd.2 hu

theorem hasUser_removeFirst_of_nodup (l : List Member) (sid : SocketId)
    (hnd : (l.map Member.socketId).Nodup) : hasUser (removeFirst l sid) sid = false := by
  cases h : hasUser (removeFirst l sid) sid with
  | false => rfl
  | true =>
      obtain ⟨u, hu, hsid⟩ := (hasUser_eq_true_iff _ _).mp h
      exact absurd hsid (socketId_ne_of_mem_removeFirst l sid u hnd hu)

theorem eraseSock_of_not_mem (l : List SocketId) (sid : SocketId) (h : sid ∉ l) :
    eraseSock l sid = l := by
  induction l with
  | nil => simp [eraseSock]
  | cons a rest ih =>
      simp only [List.mem_cons, not_or] at h
      simp [eraseSock, Ne.symm h.1, ih h.2]

theorem not_mem_eraseSock (l : List SocketId) (sid : SocketId) :
    sid ∉ eraseSock l sid := by
  induction l with
  | nil => simp [eraseSock]
  | cons a rest ih =>
      by_cases h : a = sid
      · simpa [eraseSock, h] using ih
      · simp [eraseSock, h, ih, Ne.symm h]

theorem mem_eraseSock_of_mem_ne (l : List SocketId) (sid a : SocketId)
    (ha : a ∈ l) (hne : a ≠ sid) : a ∈ eraseSock l sid := by
  induction l with
  | nil => simp at ha
  | cons b rest ih =>
      by_cases h : b = sid
      · rcases List.mem_cons.mp ha with rfl | ha
        · exact absurd h hne
        · simpa [eraseSock, h] using ih ha
      · rcases List.mem_cons.mp ha with rfl | ha
        · simp [eraseSock, h]
        · simp [eraseSock, h, ih ha]

theorem eraseSock_map_socketId (l : List Member) (sid : SocketId)
    (hnd : (l.map Member.socketId).Nodup) :
    eraseSock (l.map Member.socketId) sid = (removeFirst l sid).map Member.socketId := by
  induction l with
  | nil => simp [eraseSock, removeFirst]
  | cons a rest ih =>
      simp only [List.map_cons, List.nodup_cons] at hnd
      by_cases h : a.socketId = sid
      · simp only [List.map_cons, eraseSock, h, if_true, removeFirst]
        exact eraseSock_of_not_mem _ _ (h ▸ hnd.1)
      · simp [eraseSock, removeFirst, h, ih hnd.2]

theorem removeUserFromRoom_get_self (rooms : List (RoomId × Room)) (rid : RoomId)
    (sid : SocketId) (room : Room) (h : mapGet rooms rid = some room) :
    mapGet (removeUserFromRoom rooms rid sid) rid
      = some { room with users := removeFirst room.users sid } := by
  unfold removeUserFromRoom
  rw [h]
  by_cases hu : hasUser room.users sid = true
  · simp [hu, mapGet_mapSet_self]
  · have hu₂ : hasUser room.users sid = false := by simpa using hu
    simp only [hu₂, Bool.false_eq_true, if_false]
    rw [removeFirst_of_hasUser_eq_false room.users sid hu₂]
    exact h

theorem removeUserFromRoom_get_ne (rooms : List (RoomId × Room)) (rid rid₁ : RoomId)
    (sid : SocketId) (h : rid₁ ≠ rid) :
    mapGet (removeUserFromRoom rooms rid sid) rid₁ = mapGet rooms rid₁ := by
  unfold removeUserFromRoom
  cases hr : mapGet rooms rid with
  | none => rfl
  | some room =>
      by_cases hu : hasUser room.users sid
      · simp [hu, mapGet_mapSet_ne _ _ _ _ h]
      · simp [hu]

theorem transferOwnership_eq (rooms : List (RoomId × Room)) (rid : RoomId) (room : Room)
    (u : Member) (rest : List Member) (h : mapGet rooms rid = some room)
    (hu : room.users = u :: rest) :
    transferOwnership rooms rid
      = (mapSet rooms rid { room with owner := u.socketId, ownerName := u.nickname },
         some u) := by
  simp only [transferOwnership, h, hu]

theorem sioMembers_sioLeave_self (sio : List (RoomId × List SocketId)) (rid : RoomId)
    (sid : SocketId) (l : List SocketId) (h : mapGet sio rid = some l) :
    sioMembers (sioLeave sio rid sid) rid = eraseSock l sid := by
  unfold sioLeave sioMembers
  rw [h, mapGet_mapSet_self]
  rfl

theorem sioMembers_sioLeaveAll (sio : List (RoomId × List SocketId)) (rid : RoomId)
    (sid : SocketId) :
    sioMembers (sioLeaveAll sio sid) rid = eraseSock (sioMembers sio rid) sid := by
  unfold sioLeaveAll sioMembers
  induction sio with
  | nil => simp [mapGet, eraseSock]
  | cons p rest ih =>
      obtain ⟨k₀, l₀⟩ := p
      by_cases h : k₀ = rid
      · simp [mapGet, h]
      · simpa [mapGet, h] using ih

theorem nameExists_of_mem (rooms : List (RoomId × Room)) (rid : RoomId) (room : Room)
    (n : String) (hmem : (rid, room) ∈ rooms) (hn : strToLower room.name = n) :
    nameExists rooms n = true := by
  induction rooms with
  | nil => simp at hmem
  | cons p rest ih =>
      rcases List.mem_cons.mp hmem with heq | hmem₂
      · subst heq
        simp [nameExists, hn]
      · obtain ⟨k₀, r₀⟩ := p
        by_cases h : strToLower r₀.name = n
        · simp [nameExists, h]
        · simp [nameExists, h, ih hmem₂]

theorem hasUser_append_last (l : List Member) (u : Member) (sid : SocketId)
    (h : u.socketId = sid) : hasUser (l ++ [u]) sid = true := by
  induction l with
  | nil => simp [hasUser, h]
  | cons a rest ih =>
      by_cases h₀ : a.socketId = sid
      · simp [hasUser, h₀]
      · simp [hasUser, h₀, ih]

example : (strTrim " Lobby " = "Lobby") := by decide

example : (strToLower "Lobby" = "lobby") := by decide

example : (mapGet stA3.chatRooms "r1").map Room.users = some [] := by decide

example : (mapGet stB4.chatRooms "r1").map Room.owner = some "A" := by decide

example : (mapGet stB4.chatRooms "r1").map (fun r => r.users.map Member.socketId)
    = some ["B"] := by decide

example : (mapGet stB4.chatRooms "r2").map (fun r => r.users.map Member.socketId)
    = some ["C", "A"] := by decide

/-- Claim C3 (code_bug evidence): after socket `A` — sole member and owner of
room `r1` — joins the other live room `r2`, the room `r1` is still present in
the room store with an empty member list, violating the invariant that a room
with zero members does not exist after processing an event. -/
theorem c3_empty_room_persists_after_join :
    (mapGet stA2.chatRooms "r1").map (fun r => r.users.map Member.socketId) = some ["A"]
    ∧ mapGet stA2.connectedUsers "A"
        = some { username := "alice", room := "r1", isOwner := true }
    ∧ (mapGet stA3.chatRooms "r1").map Room.users = some []
    ∧ stA3.chatRooms.length = 2 := by decide

/-- Claim C4 (code_bug evidence): after owner `A` of room `r1` (which also
contains `B`) joins room `r2`, the store still maps `r1` to a room whose
`owner` field is `A`, yet `A` is absent from `r1`'s member list — so the
owner is neither a member nor the earliest-joined survivor `B`. -/
theorem c4_dangling_owner_after_join :
    (mapGet stB4.chatRooms "r1").map Room.owner = some "A"
    ∧ (mapGet stB4.chatRooms "r1").map (fun r => hasUser r.users "A") = some false
    ∧ (mapGet stB4.chatRooms "r1").map (fun r => r.users.map Member.socketId)
        = some ["B"] := by decide

/-- Claim C5: when a live room's name equals the trimmed requested name
case-insensitively, the create-room request fails with a `ROOM_NAME_EXISTS`
conflict delivered to the originator only, and the state (in particular the
room count) is unchanged. -/
theorem c5_duplicate_name_conflict (s : ServerState) (sid : SocketId)
    (user raw : String) (now : Nat) (nid rid : RoomId) (room : Room)
    (hmem : (rid, room) ∈ s.chatRooms)
    (hname : strToLower room.name = strToLower (strTrim raw))
    (hne : strTrim raw ≠ "") :
    createRoomHandler s sid user raw now nid
      = (s, [{ targets := [sid], event := SEvent.roomCreationFailed "ROOM_NAME_EXISTS" }])
    ∧ ((createRoomHandler s sid user raw now nid).1).chatRooms.length
        = s.chatRooms.length := by
  have hex : nameExists s.chatRooms (strToLower (strTrim raw)) = true :=
    nameExists_of_mem s.chatRooms rid room _ hmem hname
  have h₁ : createRoomHandler s sid user raw now nid
      = (s, [{ targets := [sid],
               event := SEvent.roomCreationFailed "ROOM_NAME_EXISTS" }]) := by
    unfold createRoomHandler
    simp [hne, hex]
  exact ⟨h₁, by rw [h₁]⟩

/-- Witness for C5: the state `c5S` has a live room named `Lobby`; a request
for `" lobby "` hits the conflict branch. -/
theorem c5_witness :
    (("r", c5Room) ∈ c5S.chatRooms
      ∧ strToLower c5Room.name = strToLower (strTrim " lobby ")
      ∧ strTrim " lobby " ≠ "")
    ∧ (createRoomHandler c5S "b" "bob" " lobby " 99 "r9"
        = (c5S, [{ targets := ["b"],
                   event := SEvent.roomCreationFailed "ROOM_NAME_EXISTS" }])
      ∧ ((createRoomHandler c5S "b" "bob" " lobby " 99 "r9").1).chatRooms.length
          = c5S.chatRooms.length) :=
  ⟨by decide,
   c5_duplicate_name_conflict c5S "b" "bob" " lobby " 99 "r9" "r" c5Room
     (by decide) (by decide) (by decide)⟩

/-- Claim C6 (amended): a `leave` for a room id that names no room in the
store is answered with a `'leave failed'` error carrying `ROOM_NOT_FOUND` to
the caller only — not a success confirmation — and no state changes. -/
theorem c6_leave_unknown_room_fails (s : ServerState) (sid : SocketId)
    (user : String) (roomId : RoomId) (h : mapGet s.chatRooms roomId = none) :
    leaveHandler s sid user roomId
      = (s, [{ targets := [sid], event := SEvent.leaveFailed "ROOM_NOT_FOUND" }]) := by
  unfold leaveHandler
  rw [h]

/-- Counterexample for C6 as stated: on a state with no rooms, `leave`
produces a `'leave failed'` error event and no `'leave confirmed'` success,
contradicting the claim that the caller receives a success outcome. -/
theorem c6_counterexample :
    mapGet c6S.chatRooms "nope" = none
    ∧ (leaveHandler c6S "A" "alice" "nope").2
        = [{ targets := ["A"], event := SEvent.leaveFailed "ROOM_NOT_FOUND" }]
    ∧ (leaveHandler c6S "A" "alice" "nope").1 = c6S := by decide

/-- Witness for C6's amended theorem at the concrete state `c6S`. -/
theorem c6_witness :
    mapGet c6S.chatRooms "nope" = none
    ∧ leaveHandler c6S "A" "alice" "nope"
        = (c6S, [{ targets := ["A"], event := SEvent.leaveFailed "ROOM_NOT_FOUND" }]) :=
  ⟨by decide, c6_leave_unknown_room_fails c6S "A" "alice" "nope" (by decide)⟩

/-- Claim C7: a second `join` to the room the connection is already a member
of leaves the room record — its `users` list (entries, order, `joinedAt`) and
its `owner` — unchanged. -/
theorem c7_idempotent_join (s : ServerState) (sid : SocketId) (user : String)
    (roomId : RoomId) (now : Nat) (room : Room) (cu : UserInfo)
    (hroom : mapGet s.chatRooms roomId = some room)
    (hmem : hasUser room.users sid = true)
    (hcu : mapGet s.connectedUsers sid = some cu)
    (hcur : cu.room = roomId) :
    mapGet ((joinHandler s sid user roomId now).1).chatRooms roomId = some room := by
  simp [joinHandler, hroom, hcu, hcur, hmem, mapGet_mapSet_self]

/-- Witness for C7: socket `b` of `wS` re-joins room `r`. -/
theorem c7_witness :
    (mapGet wS.chatRooms "r" = some wRoom
      ∧ hasUser wRoom.users "b" = true
      ∧ mapGet wS.connectedUsers "b"
          = some { username := "bob", room := "r", isOwner := false })
    ∧ mapGet ((joinHandler wS "b" "bob" "r" 99).1).chatRooms "r" = some wRoom :=
  ⟨by decide,
   c7_idempotent_join wS "b" "bob" "r" 99 wRoom
     { username := "bob", room := "r", isOwner := false }
     (by decide) (by decide) (by decide) (by decide)⟩

/-- Claim C8: a chat message from a member of a room is broadcast — augmented
with the server timestamp and a message id — to exactly the room's members,
the sender included, and the state is unchanged. -/
theorem c8_message_fanout (s : ServerState) (sid : SocketId)
    (user roomId text : String) (now : Nat) (msgId : String) (room : Room)
    (hroom : mapGet s.chatRooms roomId = some room)
    (huser : user ≠ "") (htext : text ≠ "") (hrid : roomId ≠ "")
    (hmem : hasUser room.users sid = true)
    (hsio : mapGet s.sio roomId = some (room.users.map Member.socketId)) :
    chatMessageHandler s sid user roomId text now msgId
      = (s, [{ targets := room.users.map Member.socketId,
               event := SEvent.chatMessage user roomId text msgId now sid
                 (decide (room.owner = sid)) }])
    ∧ sid ∈ room.users.map Member.socketId := by
  constructor
  · unfold chatMessageHandler
    simp [huser, htext, hrid, hroom, hmem, sioMembers, hsio]
  · obtain ⟨u, hu, rfl⟩ := (hasUser_eq_true_iff _ _).mp hmem
    exact List.mem_map_of_mem Member.socketId hu

/-- Witness for C8: member `b` of the three-member room `r8` sends a message;
it is delivered to `a`, `b` and `c`. -/
theorem c8_witness :
    (mapGet c8S.chatRooms "r8" = some c8Room
      ∧ hasUser c8Room.users "b" = true
      ∧ mapGet c8S.sio "r8" = some (c8Room.users.map Member.socketId))
    ∧ (chatMessageHandler c8S "b" "bob" "r8" "hi" 77 "m1"
        = (c8S, [{ targets := c8Room.users.map Member.socketId,
                   event := SEvent.chatMessage "bob" "r8" "hi" "m1" 77 "b"
                     (decide (c8Room.owner = "b")) }])
      ∧ "b" ∈ c8Room.users.map Member.socketId) :=
  ⟨by decide,
   c8_message_fanout c8S "b" "bob" "r8" "hi" 77 "m1" c8Room
     (by decide) (by decide) (by decide) (by decide) (by decide) (by decide)⟩

/-- Claim C2 (amended): when a member of room `r1` joins a different existing
room `r2`, the handler only removes the caller from `r1`'s member list — `r1`
keeps its `owner` field and stays in the store even if emptied, and no
departure, owner-change, ownership-transfer or leave-confirmation events are
emitted — and the caller is added to `r2` without changing `r2`'s owner. -/
theorem c2_join_partial_cleanup (s : ServerState) (sid : SocketId) (user : String)
    (r₁ r₂ : RoomId) (now : Nat) (room1 room2 : Room) (cu : UserInfo)
    (hcu : mapGet s.connectedUsers sid = some cu)
    (hcur : cu.room = r₁)
    (hne : r₁ ≠ r₂)
    (hroom1 : mapGet s.chatRooms r₁ = some room1)
    (hroom2 : mapGet s.chatRooms r₂ = some room2) :
    mapGet ((joinHandler s sid user r₂ now).1).chatRooms r₁
      = some { room1 with users := removeFirst room1.users sid }
    ∧ (∃ newR2, mapGet ((joinHandler s sid user r₂ now).1).chatRooms r₂ = some newR2
        ∧ hasUser newR2.users sid = true ∧ newR2.owner = room2.owner)
    ∧ ∀ e ∈ (joinHandler s sid user r₂ now).2,
        (∀ a b, e.event ≠ SEvent.userLeft a b)
        ∧ (∀ a, e.event ≠ SEvent.ownerChanged a)
        ∧ (∀ a b, e.event ≠ SEvent.ownershipTransferred a b)
        ∧ (∀ a b, e.event ≠ SEvent.leaveConfirmed a b) := by
  have hcond : ¬ (cu.room = r₂) := by rw [hcur]; exact hne
  refine ⟨?_, ?_, ?_⟩
  · have e₁ := removeUserFromRoom_get_self s.chatRooms r₁ sid room1 hroom1
    simp [joinHandler, hroom2, hcu, hcur, hcond, hne, mapGet_mapSet_ne _ r₂ r₁ _ hne, e₁]
  · by_cases hdup : hasUser room2.users sid = true
    · refine ⟨room2, ?_, hdup, rfl⟩
      simp [joinHandler, hroom2, hcu, hcond, hdup, mapGet_mapSet_self]
    · have hdup₂ : hasUser room2.users sid = false := by simpa using hdup
      refine ⟨{ room2 with users := room2.users ++
          [{ socketId := sid, nickname := user, joinedAt := now,
             isOwner := decide (room2.owner = sid) }] }, ?_, ?_, rfl⟩
      · simp [joinHandler, hroom2, hcu, hcond, hdup₂, mapGet_mapSet_self]
      · exact hasUser_append_last _ _ _ rfl
  · simp [joinHandler, hroom2, hcu, hcond]

/-- Counterexample for C2 as stated: in the reachable state `stB3`, socket
`A` is owner and member of `r1` (which also holds `B`) and then joins the
live room `r2`; yet afterwards `r1` still exists with `owner = "A"` and sole
member `B` — the claimed full leave sequence (ownership transfer to the
earliest survivor) did not happen. -/
theorem c2_counterexample :
    (mapGet stB3.chatRooms "r1").map Room.owner = some "A"
    ∧ (mapGet stB3.chatRooms "r1").map (fun r => hasUser r.users "A") = some true
    ∧ (mapGet stB3.chatRooms "r2").isSome = true
    ∧ mapGet stB3.connectedUsers "A"
        = some { username := "alice", room := "r1", isOwner := true }
    ∧ (mapGet stB4.chatRooms "r1").map Room.owner = some "A"
    ∧ (mapGet stB4.chatRooms "r1").map (fun r => r.users.map Member.socketId)
        = some ["B"] := by decide

/-- Witness for C2's amended theorem: owner `a` of `r1` joins `r2` in `c2S`. -/
theorem c2_witness :
    (mapGet c2S.connectedUsers "a" = some { username := "alice", room := "r1", isOwner := true }
      ∧ ("r1" : RoomId) ≠ "r2"
      ∧ mapGet c2S.chatRooms "r1" = some c2Room1
      ∧ mapGet c2S.chatRooms "r2" = some c2Room2)
    ∧ (mapGet ((joinHandler c2S "a" "alice" "r2" 50).1).chatRooms "r1"
        = some { c2Room1 with users := removeFirst c2Room1.users "a" }
      ∧ (∃ newR2, mapGet ((joinHandler c2S "a" "alice" "r2" 50).1).chatRooms "r2" = some newR2
          ∧ hasUser newR2.users "a" = true ∧ newR2.owner = c2Room2.owner)
      ∧ ∀ e ∈ (joinHandler c2S "a" "alice" "r2" 50).2,
          (∀ a b, e.event ≠ SEvent.userLeft a b)
          ∧ (∀ a, e.event ≠ SEvent.ownerChanged a)
          ∧ (∀ a b, e.event ≠ SEvent.ownershipTransferred a b)
          ∧ (∀ a b, e.event ≠ SEvent.leaveConfirmed a b)) :=
  ⟨by decide,
   c2_join_partial_cleanup c2S "a" "alice" "r1" "r2" 50 c2Room1 c2Room2
     { username := "alice", room := "r1", isOwner := true }
     (by decide) (by decide) (by decide) (by decide) (by decide)⟩

/-- Claim C10: after a successful create-room, join or leave, the updated
rooms list (id, name, owner nickname, user count, member nicknames, creation
time per room) is broadcast via `io.emit` to every connected socket — the set
of connected sockets being unchanged by these handlers — while a `'get
rooms'` request is answered to the requesting socket only. -/
theorem c10_rooms_list_broadcast (s : ServerState)
    (cSid jSid lSid gSid : SocketId) (cUser jUser lUser raw : String)
    (now : Nat) (nid jRoomId lRoomId : RoomId) (roomJ roomL : Room)
    (h₁ : strTrim raw ≠ "")
    (h₂ : nameExists s.chatRooms (strToLower (strTrim raw)) = false)
    (h₃ : mapGet s.chatRooms jRoomId = some roomJ)
    (h₄ : mapGet s.chatRooms lRoomId = some roomL) :
    ({ targets := s.sockets,
       event := SEvent.roomsList (roomsSummary
         ((createRoomHandler s cSid cUser raw now nid).1).chatRooms) }
        ∈ (createRoomHandler s cSid cUser raw now nid).2
      ∧ ((createRoomHandler s cSid cUser raw now nid).1).sockets = s.sockets)
    ∧ ({ targets := s.sockets,
         event := SEvent.roomsList (roomsSummary
           ((joinHandler s jSid jUser jRoomId now).1).chatRooms) }
          ∈ (joinHandler s jSid jUser jRoomId now).2
      ∧ ((joinHandler s jSid jUser jRoomId now).1).sockets = s.sockets)
    ∧ ({ targets := s.sockets,
         event := SEvent.roomsList (roomsSummary
           ((leaveHandler s lSid lUser lRoomId).1).chatRooms) }
          ∈ (leaveHandler s lSid lUser lRoomId).2
      ∧ ((leaveHandler s lSid lUser lRoomId).1).sockets = s.sockets)
    ∧ getRoomsHandler s gSid
        = (s, [{ targets := [gSid], event := SEvent.roomsList (roomsSummary s.chatRooms) }]) := by
  refine ⟨⟨?_, ?_⟩, ⟨?_, ?_⟩, ⟨?_, ?_⟩, rfl⟩
  · simp [createRoomHandler, h₁, h₂]
  · simp [createRoomHandler, h₁, h₂]
  · rcases hc : mapGet s.connectedUsers jSid with _ | cu
    · simp [joinHandler, h₃, hc]
    · by_cases hcr : cu.room = jRoomId
      · simp [joinHandler, h₃, hc, hcr]
      · simp [joinHandler, h₃, hc, hcr]
  · rcases hc : mapGet s.connectedUsers jSid with _ | cu
    · simp [joinHandler, h₃, hc]
    · by_cases hcr : cu.room = jRoomId
      · simp [joinHandler, h₃, hc, hcr]
      · simp [joinHandler, h₃, hc, hcr]
  · by_cases hown : roomL.owner = lSid
    · rcases hre : removeFirst roomL.users lSid with _ | ⟨m, rest⟩
      · simp [leaveHandler, h₄, hown, hre]
      · have hget : mapGet (removeUserFromRoom s.chatRooms lRoomId lSid) lRoomId
            = some { roomL with users := m :: rest } := by
          rw [removeUserFromRoom_get_self _ _ _ _ h₄, hre]
        have htr := transferOwnership_eq _ _ _ m rest hget rfl
        simp [leaveHandler, h₄, hown, hre, htr]
    · simp [leaveHandler, h₄, hown]
  · by_cases hown : roomL.owner = lSid
    · rcases hre : removeFirst roomL.users lSid with _ | ⟨m, rest⟩
      · simp [leaveHandler, h₄, hown, hre]
      · have hget : mapGet (removeUserFromRoom s.chatRooms lRoomId lSid) lRoomId
            = some { roomL with users := m :: rest } := by
          rw [removeUserFromRoom_get_self _ _ _ _ h₄, hre]
        have htr := transferOwnership_eq _ _ _ m rest hget rfl
        simp [leaveHandler, h₄, hown, hre, htr]
    · simp [leaveHandler, h₄, hown]

/-- Witness for C10 on the state `c8S`: create a room named `z`, join and
leave room `r8`, and request the list. -/
theorem c10_witness :
    (strTrim "z" ≠ ""
      ∧ nameExists c8S.chatRooms (strToLower (strTrim "z")) = false
      ∧ mapGet c8S.chatRooms "r8" = some c8Room)
    ∧ (({ targets := c8S.sockets,
          event := SEvent.roomsList (roomsSummary
            ((createRoomHandler c8S "a" "alice" "z" 91 "r9").1).chatRooms) }
           ∈ (createRoomHandler c8S "a" "alice" "z" 91 "r9").2
        ∧ ((createRoomHandler c8S "a" "alice" "z" 91 "r9").1).sockets = c8S.sockets)
      ∧ ({ targets := c8S.sockets,
           event := SEvent.roomsList (roomsSummary
             ((joinHandler c8S "b" "bob" "r8" 91).1).chatRooms) }
            ∈ (joinHandler c8S "b" "bob" "r8" 91).2
        ∧ ((joinHandler c8S "b" "bob" "r8" 91).1).sockets = c8S.sockets)
      ∧ ({ targets := c8S.sockets,
           event := SEvent.roomsList (roomsSummary
             ((leaveHandler c8S "c" "carol" "r8").1).chatRooms) }
            ∈ (leaveHandler c8S "c" "carol" "r8").2
        ∧ ((leaveHandler c8S "c" "carol" "r8").1).sockets = c8S.sockets)
      ∧ getRoomsHandler c8S "b"
          = (c8S, [{ targets := ["b"],
                     event := SEvent.roomsList (roomsSummary c8S.chatRooms) }])) :=
  ⟨by decide,
   c10_rooms_list_broadcast c8S "a" "b" "c" "b" "alice" "bob" "carol" "z" 91 "r9" "r8" "r8"
     c8Room c8Room (by decide) (by decide) (by decide) (by decide)⟩

/-- Claim C1: in a room with at least two members whose owner leaves or
disconnects, the new owner is the member at index 0 of the remaining members
sequence; that member receives a distinct `'ownership transferred'` event,
and all remaining members (the new owner included) receive an
`'owner changed'` event naming the new owner. -/
theorem c1_owner_succession (s : ServerState) (sid : SocketId) (u : String)
    (roomId : RoomId) (room : Room) (m : Member) (rest : List Member) (du : UserInfo)
    (hroom : mapGet s.chatRooms roomId = some room)
    (hown : room.owner = sid)
    (hcount : 2 ≤ room.users.length)
    (hnodup : (room.users.map Member.socketId).Nodup)
    (hrem : removeFirst room.users sid = m :: rest)
    (hsio : mapGet s.sio roomId = some (room.users.map Member.socketId))
    (hlive : m.socketId ∈ s.sockets)
    (hcu : mapGet s.connectedUsers sid = some du)
    (hduroom : du.room = roomId)
    (hduown : du.isOwner = true) :
    ((mapGet ((leaveHandler s sid u roomId).1).chatRooms roomId).map Room.owner
        = some m.socketId
      ∧ { targets := [m.socketId],
          event := SEvent.ownershipTransferred roomId room.name }
          ∈ (leaveHandler s sid u roomId).2
      ∧ { targets := (m :: rest).map Member.socketId,
          event := SEvent.ownerChanged m.nickname } ∈ (leaveHandler s sid u roomId).2)
    ∧ ((mapGet ((disconnectHandler s sid).1).chatRooms roomId).map Room.owner
        = some m.socketId
      ∧ { targets := [m.socketId],
          event := SEvent.ownershipTransferred roomId room.name }
          ∈ (disconnectHandler s sid).2
      ∧ { targets := (m :: rest).map Member.socketId,
          event := SEvent.ownerChanged m.nickname } ∈ (disconnectHandler s sid).2) := by
  have hget : mapGet (removeUserFromRoom s.chatRooms roomId sid) roomId
      = some { room with users := m :: rest } := by
    rw [removeUserFromRoom_get_self _ _ _ _ hroom, hrem]
  have htr := transferOwnership_eq _ _ _ m rest hget rfl
  have herase : eraseSock (room.users.map Member.socketId) sid
      = (m :: rest).map Member.socketId := by
    rw [eraseSock_map_socketId _ _ hnodup, hrem]
  have hsio₁ : sioMembers (sioLeave s.sio roomId sid) roomId
      = (m :: rest).map Member.socketId := by
    rw [sioMembers_sioLeave_self _ _ _ _ hsio, herase]
  have hmne : m.socketId ≠ sid := by
    refine socketId_ne_of_mem_removeFirst room.users sid m hnodup ?_
    rw [hrem]
    exact List.mem_cons_self m rest
  have hlive₂ : m.socketId ∈ eraseSock s.sockets sid :=
    mem_eraseSock_of_mem_ne _ _ _ hlive hmne
  have hsio₂ : sioMembers (sioLeaveAll s.sio sid) roomId
      = (m :: rest).map Member.socketId := by
    rw [sioMembers_sioLeaveAll]
    unfold sioMembers
    rw [hsio]
    exact herase
  constructor
  · refine ⟨?_, ?_, ?_⟩
    · simp [leaveHandler, hroom, hown, hrem, htr, mapGet_mapSet_self]
    · simp [leaveHandler, hroom, hown, hrem, htr, hlive]
    · simp [leaveHandler, hroom, hown, hrem, htr, hsio₁]
  · refine ⟨?_, ?_, ?_⟩
    · simp [disconnectHandler, hcu, hduroom, hroom, hduown, hrem, htr, mapGet_mapSet_self]
    · simp [disconnectHandler, hcu, hduroom, hroom, hduown, hrem, htr, hlive₂]
    · simp [disconnectHandler, hcu, hduroom, hroom, hduown, hrem, htr, hsio₂]

/-- Witness for C1 on the two-member room state `wS`: owner `a` leaves or
disconnects and member `b` succeeds. -/
theorem c1_witness :
    (mapGet wS.chatRooms "r" = some wRoom
      ∧ wRoom.owner = "a"
      ∧ 2 ≤ wRoom.users.length
      ∧ (wRoom.users.map Member.socketId).Nodup
      ∧ removeFirst wRoom.users "a"
          = [{ socketId := "b", nickname := "bob", joinedAt := 2, isOwner := false }]
      ∧ mapGet wS.sio "r" = some (wRoom.users.map Member.socketId)
      ∧ ("b" : SocketId) ∈ wS.sockets
      ∧ mapGet wS.connectedUsers "a"
          = some { username := "alice", room := "r", isOwner := true })
    ∧ (((mapGet ((leaveHandler wS "a" "alice" "r").1).chatRooms "r").map Room.owner
          = some "b"
        ∧ { targets := ["b"], event := SEvent.ownershipTransferred "r" wRoom.name }
            ∈ (leaveHandler wS "a" "alice" "r").2
        ∧ { targets := ["b"], event := SEvent.ownerChanged "bob" }
            ∈ (leaveHandler wS "a" "alice" "r").2)
      ∧ ((mapGet ((disconnectHandler wS "a").1).chatRooms "r").map Room.owner
          = some "b"
        ∧ { targets := ["b"], event := SEvent.ownershipTransferred "r" wRoom.name }
            ∈ (disconnectHandler wS "a").2
        ∧ { targets := ["b"], event := SEvent.ownerChanged "bob" }
            ∈ (disconnectHandler wS "a").2)) :=
  ⟨by decide,
   c1_owner_succession wS "a" "alice" "r" wRoom
     { socketId := "b", nickname := "bob", joinedAt := 2, isOwner := false } []
     { username := "alice", room := "r", isOwner := true }
     (by decide) (by decide) (by decide) (by decide) (by decide) (by decide)
     (by decide) (by decide) (by decide) (by decide)⟩

/-- Claim C9: when a connection `X` joined to a room disconnects without
leaving, the room's member list no longer contains `X` afterwards; if `X` was
owner and other members remain, the earliest-joined survivor becomes owner;
no `'user left'` notification targets `X` itself; and `X`'s session entry is
destroyed. -/
theorem c9_disconnect_cleanup (s : ServerState) (X : SocketId) (du : UserInfo)
    (room : Room)
    (hcu : mapGet s.connectedUsers X = some du)
    (hroom : mapGet s.chatRooms du.room = some room)
    (hmem : hasUser room.users X = true)
    (hnodup : (room.users.map Member.socketId).Nodup) :
    (∀ r₂, mapGet ((disconnectHandler s X).1).chatRooms du.room = some r₂ →
        hasUser r₂.users X = false)
    ∧ (∀ m rest, du.isOwner = true → removeFirst room.users X = m :: rest →
        (mapGet ((disconnectHandler s X).1).chatRooms du.room).map Room.owner
          = some m.socketId)
    ∧ (∀ e ∈ (disconnectHandler s X).2, ∀ a b,
        e.event = SEvent.userLeft a b → X ∉ e.targets)
    ∧ mapGet ((disconnectHandler s X).1).connectedUsers X = none := by
  by_cases hOwn : du.isOwner = true
  · rcases hre : removeFirst room.users X with _ | ⟨m₀, rest₀⟩
    · have hfin : mapGet ((disconnectHandler s X).1).chatRooms du.room = none := by
        simp [disconnectHandler, hcu, hroom, hOwn, hre, mapGet_mapDelete_self]
      refine ⟨?_, ?_, ?_, ?_⟩
      · intro r₂ hr
        rw [hfin] at hr
        simp at hr
      · intro m rest h₁ h₂
        simp at h₂
      · intro e he a b hev
        simp [disconnectHandler, hcu, hroom, hOwn, hre] at he
        rcases he with rfl | rfl
        · exact not_mem_eraseSock _ _
        · simp at hev
      · simp [disconnectHandler, hcu, hroom, hOwn, hre, mapGet_mapDelete_self]
    · have hget : mapGet (removeUserFromRoom s.chatRooms du.room X) du.room
          = some { room with users := m₀ :: rest₀ } := by
        rw [removeUserFromRoom_get_self _ _ _ _ hroom, hre]
      have htr := transferOwnership_eq _ _ _ m₀ rest₀ hget rfl
      have hfalse : hasUser (m₀ :: rest₀) X = false := by
        rw [← hre]
        exact hasUser_removeFirst_of_nodup _ _ hnodup
      have hfin : mapGet ((disconnectHandler s X).1).chatRooms du.room
          = some { room with users := m₀ :: rest₀, owner := m₀.socketId,
                             ownerName := m₀.nickname } := by
        simp [disconnectHandler, hcu, hroom, hOwn, hre, htr, mapGet_mapSet_self]
      refine ⟨?_, ?_, ?_, ?_⟩
      · intro r₂ hr
        rw [hfin] at hr
        injection hr with h
        subst h
        exact hfalse
      · intro m rest h₁ h₂
        injection h₂ with hm hrest
        subst hm
        rw [hfin]
        rfl
      · intro e he a b hev
        by_cases hlv : m₀.socketId ∈ eraseSock s.sockets X
        · simp [disconnectHandler, hcu, hroom, hOwn, hre, htr, hlv] at he
          rcases he with rfl | rfl | rfl | rfl
          · exact not_mem_eraseSock _ _
          · simp at hev
          · simp at hev
          · simp at hev
        · simp [disconnectHandler, hcu, hroom, hOwn, hre, htr, hlv] at he
          rcases he with rfl | rfl | rfl
          · exact not_mem_eraseSock _ _
          · simp at hev
          · simp at hev
      · simp [disconnectHandler, hcu, hroom, hOwn, hre, htr, mapGet_mapDelete_self]
  · have hOwn₂ : du.isOwner = false := by simpa using hOwn
    have hfin : mapGet ((disconnectHandler s X).1).chatRooms du.room
        = some { room with users := removeFirst room.users X } := by
      simp [disconnectHandler, hcu, hroom, hOwn₂,
        removeUserFromRoom_get_self _ _ _ _ hroom]
    refine ⟨?_, ?_, ?_, ?_⟩
    · intro r₂ hr
      rw [hfin] at hr
      injection hr with h
      subst h
      exact hasUser_removeFirst_of_nodup _ _ hnodup
    · intro m rest h₁ h₂
      rw [hOwn₂] at h₁
      simp at h₁
    · intro e he a b hev
      simp [disconnectHandler, hcu, hroom, hOwn₂] at he
      rcases he with rfl | rfl
      · exact not_mem_eraseSock _ _
      · simp at hev
    · simp [disconnectHandler, hcu, hroom, hOwn₂, mapGet_mapDelete_self]

/-- Witness for C9: member `b` (not the owner) of `wS` disconnects. -/
theorem c9_witness :
    (mapGet wS.connectedUsers "b"
        = some { username := "bob", room := "r", isOwner := false }
      ∧ mapGet wS.chatRooms "r" = some wRoom
      ∧ hasUser wRoom.users "b" = true
      ∧ (wRoom.users.map Member.socketId).Nodup)
    ∧ ((∀ r₂, mapGet ((disconnectHandler wS "b").1).chatRooms "r" = some r₂ →
          hasUser r₂.users "b" = false)
      ∧ (∀ m rest, (false : Bool) = true → removeFirst wRoom.users "b" = m :: rest →
          (mapGet ((disconnectHandler wS "b").1).chatRooms "r").map Room.owner
            = some m.socketId)
      ∧ (∀ e ∈ (disconnectHandler wS "b").2, ∀ a b,
          e.event = SEvent.userLeft a b → "b" ∉ e.targets)
      ∧ mapGet ((disconnectHandler wS "b").1).connectedUsers "b" = none) :=
  ⟨by decide,
   c9_disconnect_cleanup wS "b" { username := "bob", room := "r", isOwner := false }
     wRoom (by decide) (by decide) (by decide) (by decide)⟩
